import Mathlib

/-!
Shallow embedding of `colour/plotting/quality.py` (colour-science plotting
glue for Colour Rendering Index and Colour Quality Scale bar charts).

The module draws grouped bar charts from precomputed quality
specifications.  We embed the observable chart content — bar positions,
heights, fill colours, hatch markers, tick positions and labels, legend
flag and title — as pure data, with the external collaborators
(`XYZ_to_plotting_colourspace`, `colour_rendering_index`,
`colour_quality_scale`, the hatch-pattern palette) as parameters.
Real numbers of the source are modelled as rationals.
-/

namespace ColourQuality

/-- A tristimulus-like triple of rationals. -/
abbrev Triple := ℚ × ℚ × ℚ

/-- Mirror of `colour.quality.cri.TCS_ColorimetryData`
(name, XYZ, uv, UVW). -/
structure TCS_ColorimetryData where
  name : String
  XYZ : Triple
  uv : ℚ × ℚ
  UVW : Triple
deriving DecidableEq

/-- The per-sample data object stored in a specification's `Q_as` mapping;
only its `Q_a` attribute is read by the plotting code. -/
structure QualityDataItem where
  Q_a : ℚ
deriving DecidableEq

/-- Mirror of a colour quality specification as consumed by
`colour_quality_bars_plot`: overall score `Q_a`, per-sample mapping `Q_as`
(dict items as an association list, arbitrary order), and
`colorimetry_data`, a pair of lists of which the plotting code reads
component `[0]` (test-sample data). -/
structure QualitySpecification where
  name : String
  Q_a : ℚ
  Q_as : List (Nat × QualityDataItem)
  colorimetry_data : List TCS_ColorimetryData × List TCS_ColorimetryData
deriving DecidableEq

/-- Mirror of a spectral power distribution; the plotting layer only reads
its `strict_name`. -/
structure SpectralPowerDistribution where
  strict_name : String
deriving DecidableEq

/-- `bar_width = 0.5` from the source. -/
def bar_width : ℚ := 1 / 2

/-- `np.clip(v, 0, 1)` on a scalar. -/
def clip01 (v : ℚ) : ℚ := min (max v 0) 1

/-- `np.clip(t, 0, 1)` on a triple. -/
def clip3 (t : Triple) : Triple := (clip01 t.1, clip01 t.2.1, clip01 t.2.2)

/-- `sorted(Q_as.items(), key=lambda s: s[0])`: the dict items sorted by
sample key (Python `sorted` is stable; so is insertion sort). -/
def sortedItems (q : List (Nat × QualityDataItem)) : List (Nat × QualityDataItem) :=
  List.insertionSort (fun a b => a.1 ≤ b.1) q

/-- `y = np.array([Q_a] + [s[1].Q_a for s in sorted(Q_as.items(), ...)])`:
the overall score followed by the per-sample scores in ascending key
order. -/
def yValues (spec : QualitySpecification) : List ℚ :=
  spec.Q_a :: (sortedItems spec.Q_as).map (fun s => s.2.Q_a)

/-- `colours = [[1] * 3] + [np.clip(XYZ_to_plotting_colourspace(x.XYZ), 0, 1)
for x in colorimetry_data[0]]`.  The colourspace conversion is an external
collaborator, passed as `convert`. -/
def barColours (convert : Triple → Triple) (spec : QualitySpecification) : List Triple :=
  (1, 1, 1) :: spec.colorimetry_data.1.map (fun x => clip3 (convert x.XYZ))

/-- `x = (i + np.arange(0, (count_Q_as + 1) * (count_s + 1), (count_s + 1)))
* bar_width`: the `count_Q_as + 1` bar abscissae for specification `i`. -/
def xPositions (i : ℕ) (count_Q_as count_s : ℕ) : List ℚ :=
  (List.range (count_Q_as + 1)).map
    (fun k : ℕ => ((i : ℚ) + (k : ℚ) * ((count_s : ℚ) + 1)) * bar_width)

/-- Python string repetition `s * n`. -/
def strRepeat (s : String) (n : ℕ) : String := String.join (List.replicate n s)

/-- `next(patterns)` for the `i`-th call on
`cycle(COLOUR_STYLE_CONSTANTS.hatch.patterns)`. -/
def patternAt (patterns : List String) (i : ℕ) : String :=
  patterns.getD (i % patterns.length) ""

/-- `hatches = ([next(patterns) * hatching_repeat] * (count_Q_as + 1)
if hatching else np.where(y < 0, next(patterns), None).tolist())`. -/
def hatchesList (hatching : Bool) (pattern : String) (hatching_repeat : ℕ)
    (count_Q_as : ℕ) (y : List ℚ) : List (Option String) :=
  if hatching then
    List.replicate (count_Q_as + 1) (some (strRepeat pattern hatching_repeat))
  else
    y.map (fun v => if v < 0 then some pattern else none)

/-- The observable content of one `plt.bar` call (one specification's
series): abscissae, drawn heights (`np.abs(y)`), fill colours, the hatch
applied to each bar patch, and the series label. -/
structure DrawnBars where
  xs : List ℚ
  heights : List ℚ
  colours : List Triple
  hatches : List (Option String)
  label : String
deriving DecidableEq

/-- The body of the `for i, specification in enumerate(specifications)`
loop: everything drawn for specification number `i`. -/
def specDrawnBars (convert : Triple → Triple) (patterns : List String)
    (count_s : ℕ) (hatching : Bool) (hatching_repeat : ℕ)
    (i : ℕ) (spec : QualitySpecification) : DrawnBars :=
  let count_Q_as := spec.Q_as.length
  let y := yValues spec
  { xs := xPositions i count_Q_as count_s
    heights := y.map (fun v => |v|)
    colours := barColours convert spec
    hatches := hatchesList hatching (patternAt patterns i) hatching_repeat count_Q_as y
    label := spec.name }

/-- `if hatching is None: hatching = False if count_s == 1 else True`. -/
def resolveHatching (hatching : Option Bool) (count_s : ℕ) : Bool :=
  match hatching with
  | some b => b
  | none => if count_s = 1 then false else true

/-- The x-tick positions:
`np.arange(0, (count_Q_as + 1) * (count_s + 1), (count_s + 1)) * bar_width
+ (count_s * bar_width / 2)`. -/
def xTicksPositions (count_Q_as count_s : ℕ) : List ℚ :=
  (List.range (count_Q_as + 1)).map
    (fun k : ℕ =>
      (k : ℚ) * ((count_s : ℚ) + 1) * bar_width + (count_s : ℚ) * bar_width / 2)

/-- The x-tick labels:
a "Qa" label followed by a "Q{0}".format(index + 1) label for each index
in range(0, count_Q_as + 1, 1). -/
def xTicksLabels (count_Q_as : ℕ) : List String :=
  "Qa" :: (List.range (count_Q_as + 1)).map (fun index => "Q" ++ toString (index + 1))

/-- `range(0, 100 + y_ticks_interval, y_ticks_interval)` with
`y_ticks_interval = 10`: the eleven values 0, 10, ..., 100. -/
def yTicksValues : List ℕ := List.range' 0 11 10

/-- The value of the loop variable `count_Q_as` after the loop: the sample
count of the last specification (0 when the sequence is empty, matching the
initialiser `count_Q_as = 0`). -/
def lastCountQas (specifications : List QualitySpecification) : ℕ :=
  match specifications.getLast? with
  | some s => s.Q_as.length
  | none => 0

/-- The observable outcome of `colour_quality_bars_plot`: the bar series,
axis decorations and the settings handed to `render`. -/
structure PlotOutput where
  bars : List DrawnBars
  x_ticks : List ℚ
  x_tick_labels : List String
  y_ticks : List ℕ
  axhline_y : ℚ
  legend : Bool
  title : String
deriving DecidableEq

/-- Embedding of `colour_quality_bars_plot`.  `convert` stands for
`XYZ_to_plotting_colourspace` and `patterns` for
`COLOUR_STYLE_CONSTANTS.hatch.patterns`; the `labels` flag only triggers
`label_rectangles` annotations, which add no chart content modelled here,
but is kept for signature fidelity. -/
def colour_quality_bars_plot (convert : Triple → Triple) (patterns : List String)
    (specifications : List QualitySpecification)
    (lbls : Bool) (hatching : Option Bool) (hatching_repeat : ℕ) : PlotOutput :=
  let count_s := specifications.length
  let h := resolveHatching hatching count_s
  { bars := specifications.enum.map
      (fun p => specDrawnBars convert patterns count_s h hatching_repeat p.1 p.2)
    x_ticks := xTicksPositions (lastCountQas specifications) count_s
    x_tick_labels := xTicksLabels (lastCountQas specifications)
    y_ticks := yTicksValues
    axhline_y := 100
    legend := h
    title := "Colour Quality" }

/-- The reconstruction
`TCS_ColorimetryData(c_d.name, c_d.XYZ / 100, c_d.uv, c_d.UVW)` applied to
one colorimetry datum by the CRI wrapper. -/
def rescaleDatum (c_d : TCS_ColorimetryData) : TCS_ColorimetryData :=
  { name := c_d.name
    XYZ := (c_d.XYZ.1 / 100, c_d.XYZ.2.1 / 100, c_d.XYZ.2.2 / 100)
    uv := c_d.uv
    UVW := c_d.UVW }

/-- The per-specification loop of the CRI wrapper: every element of
`colorimetry_data[0]` is replaced by its rescaled reconstruction;
`colorimetry_data[1]` is untouched. -/
def rescaleColorimetryData (spec : QualitySpecification) : QualitySpecification :=
  { spec with
    colorimetry_data :=
      (spec.colorimetry_data.1.map rescaleDatum, spec.colorimetry_data.2) }

/-- The specifications actually handed to `colour_quality_bars_plot` by the
CRI wrapper: `colour_rendering_index(spd, additional_data=True)` for each
spd (external collaborator `cri`), then the in-place domain rescale. -/
def cri_specifications (cri : SpectralPowerDistribution → QualitySpecification)
    (spds : List SpectralPowerDistribution) : List QualitySpecification :=
  (spds.map cri).map rescaleColorimetryData

/-- Embedding of `multi_spd_colour_rendering_index_bars_plot`: compute the
CRI specifications, rescale their colorimetry data, delegate to
`colour_quality_bars_plot`, then retitle. -/
def multi_spd_colour_rendering_index_bars_plot (convert : Triple → Triple)
    (patterns : List String) (cri : SpectralPowerDistribution → QualitySpecification)
    (spds : List SpectralPowerDistribution)
    (lbls : Bool) (hatching : Option Bool) (hatching_repeat : ℕ) : PlotOutput :=
  let plot := colour_quality_bars_plot convert patterns (cri_specifications cri spds)
    lbls hatching hatching_repeat
  { plot with
    title := "Colour Rendering Index - " ++
      String.intercalate ", " (spds.map (fun s => s.strict_name)) }

/-- Embedding of `single_spd_colour_rendering_index_bars_plot`:
`return multi_spd_colour_rendering_index_bars_plot([spd], **kwargs)`. -/
def single_spd_colour_rendering_index_bars_plot (convert : Triple → Triple)
    (patterns : List String) (cri : SpectralPowerDistribution → QualitySpecification)
    (spd : SpectralPowerDistribution)
    (lbls : Bool) (hatching : Option Bool) (hatching_repeat : ℕ) : PlotOutput :=
  multi_spd_colour_rendering_index_bars_plot convert patterns cri [spd]
    lbls hatching hatching_repeat

/-- Embedding of `multi_spd_colour_quality_scale_bars_plot`: same flow with
the external CQS collaborator `cqs` and no domain rescale. -/
def multi_spd_colour_quality_scale_bars_plot (convert : Triple → Triple)
    (patterns : List String) (cqs : SpectralPowerDistribution → QualitySpecification)
    (spds : List SpectralPowerDistribution)
    (lbls : Bool) (hatching : Option Bool) (hatching_repeat : ℕ) : PlotOutput :=
  let plot := colour_quality_bars_plot convert patterns (spds.map cqs)
    lbls hatching hatching_repeat
  { plot with
    title := "Colour Quality Scale - " ++
      String.intercalate ", " (spds.map (fun s => s.strict_name)) }

/-- Embedding of `single_spd_colour_quality_scale_bars_plot`:
`return multi_spd_colour_quality_scale_bars_plot([spd], **kwargs)`. -/
def single_spd_colour_quality_scale_bars_plot (convert : Triple → Triple)
    (patterns : List String) (cqs : SpectralPowerDistribution → QualitySpecification)
    (spd : SpectralPowerDistribution)
    (lbls : Bool) (hatching : Option Bool) (hatching_repeat : ℕ) : PlotOutput :=
  multi_spd_colour_quality_scale_bars_plot convert patterns cqs [spd]
    lbls hatching hatching_repeat

/-- A store of caller-reachable `QualitySpecification` objects, for stating
heap effects of the CRI wrapper.  Objects are identified by their index;
the wrapper allocates fresh specifications (via `colour_rendering_index`)
and its rescale loop rebinds only those fresh objects, modelled by
appending them to the store. -/
structure SpecificationStore where
  specs : List QualitySpecification
deriving DecidableEq

/-- Heap-effect model of `multi_spd_colour_rendering_index_bars_plot`:
given the caller's store, the call allocates the freshly computed and
rescaled CRI specifications and returns the plot; pre-existing store
entries are not written. -/
def multi_cri_bars_plot_effect (convert : Triple → Triple) (patterns : List String)
    (cri : SpectralPowerDistribution → QualitySpecification)
    (store : SpecificationStore) (spds : List SpectralPowerDistribution)
    (lbls : Bool) (hatching : Option Bool) (hatching_repeat : ℕ) :
    SpecificationStore × PlotOutput :=
  ({ specs := store.specs ++ cri_specifications cri spds },
   multi_spd_colour_rendering_index_bars_plot convert patterns cri spds
     lbls hatching hatching_repeat)

/-! ### Concrete sample data used to exercise the definitions -/

/-- A placeholder display-colourspace conversion (the conversion is an
external collaborator; the identity is one admissible instance). -/
def idConvert : Triple → Triple := fun t => t

/-- A concrete hatch-pattern palette. -/
def samplePatterns : List String := ["\\", "x", "o", "+"]

/-- A concrete colorimetry datum with XYZ = (50, 100, 20). -/
def sampleDatum : TCS_ColorimetryData :=
  { name := "TCS1", XYZ := (50, 100, 20), uv := (1/5, 3/10), UVW := (10, 20, 30) }

/-- A second concrete colorimetry datum. -/
def sampleDatum2 : TCS_ColorimetryData :=
  { name := "TCS2", XYZ := (30, 40, 50), uv := (1/4, 1/3), UVW := (5, 6, 7) }

/-- A concrete specification with two samples, keys listed out of order and
one negative per-sample score. -/
def sampleSpec : QualitySpecification :=
  { name := "F2", Q_a := 65,
    Q_as := [(2, ⟨-5⟩), (1, ⟨70⟩)],
    colorimetry_data := ([sampleDatum, sampleDatum2], []) }

/-- A second concrete specification with two samples. -/
def sampleSpecB : QualitySpecification :=
  { name := "Kinoton 75P", Q_a := 80,
    Q_as := [(1, ⟨55⟩), (2, ⟨60⟩)],
    colorimetry_data := ([sampleDatum2, sampleDatum], []) }

/-! ### Helper lemmas -/

/-- Indexing the bar series of the plot: the `i`-th series, when present,
is the loop body applied to the `i`-th specification. -/
theorem plot_bars_get? (convert : Triple → Triple) (patterns : List String)
    (specs : List QualitySpecification) (lbls : Bool) (hatching : Option Bool)
    (hr i : ℕ) :
    (colour_quality_bars_plot convert patterns specs lbls hatching hr).bars.get? i =
      (specs.get? i).map
        (specDrawnBars convert patterns specs.length
          (resolveHatching hatching specs.length) hr i) := by
  simp [colour_quality_bars_plot, List.get?_map, List.get?_enum, Option.map_map]
  rfl

/-- Projection: the abscissae of one series. -/
theorem specDrawnBars_xs (convert : Triple → Triple) (patterns : List String)
    (count_s : ℕ) (h : Bool) (hr i : ℕ) (spec : QualitySpecification) :
    (specDrawnBars convert patterns count_s h hr i spec).xs =
      xPositions i spec.Q_as.length count_s := rfl

/-- Projection: the drawn heights of one series. -/
theorem specDrawnBars_heights (convert : Triple → Triple)
    (patterns : List String) (count_s : ℕ) (h : Bool) (hr i : ℕ)
    (spec : QualitySpecification) :
    (specDrawnBars convert patterns count_s h hr i spec).heights =
      (yValues spec).map (fun v => |v|) := rfl

/-- Projection: the fill colours of one series. -/
theorem specDrawnBars_colours (convert : Triple → Triple)
    (patterns : List String) (count_s : ℕ) (h : Bool) (hr i : ℕ)
    (spec : QualitySpecification) :
    (specDrawnBars convert patterns count_s h hr i spec).colours =
      barColours convert spec := rfl

/-- Projection: the hatches of one series. -/
theorem specDrawnBars_hatches (convert : Triple → Triple)
    (patterns : List String) (count_s : ℕ) (h : Bool) (hr i : ℕ)
    (spec : QualitySpecification) :
    (specDrawnBars convert patterns count_s h hr i spec).hatches =
      hatchesList h (patternAt patterns i) hr spec.Q_as.length
        (yValues spec) := rfl

/-- Projection: the rescaled test-sample colorimetry list. -/
theorem rescale_cd_fst (spec : QualitySpecification) :
    (rescaleColorimetryData spec).colorimetry_data.1 =
      spec.colorimetry_data.1.map rescaleDatum := rfl

/-! ### Claims -/

/-- C3: The CRI wrapper's rescale constructs new colorimetry values and
writes them only into the specifications freshly allocated inside the call
(by `colour_rendering_index`); every specification object the caller held
before the call is unchanged after `multi_spd_colour_rendering_index_bars_plot`
returns. -/
theorem cri_wrapper_preserves_caller_store (convert : Triple → Triple)
    (patterns : List String) (cri : SpectralPowerDistribution → QualitySpecification)
    (store : SpecificationStore) (spds : List SpectralPowerDistribution)
    (lbls : Bool) (hatching : Option Bool) (hr : ℕ) :
    ((multi_cri_bars_plot_effect convert patterns cri store spds
        lbls hatching hr).1.specs).take store.specs.length = store.specs := by
  simp [multi_cri_bars_plot_effect]

/-- C5: With `hatching = None`, hatching resolves to disabled exactly when
there is one specification, and to enabled exactly otherwise (observed
through the `legend` setting, which the source sets to the resolved
hatching flag). -/
theorem auto_hatching_resolution (convert : Triple → Triple)
    (patterns : List String) (specs : List QualitySpecification)
    (lbls : Bool) (hr : ℕ) :
    ((colour_quality_bars_plot convert patterns specs lbls none hr).legend = false ↔
      specs.length = 1) ∧
    ((colour_quality_bars_plot convert patterns specs lbls none hr).legend = true ↔
      specs.length ≠ 1) := by
  by_cases h : specs.length = 1 <;>
    simp [colour_quality_bars_plot, resolveHatching, h]

/-- C8: The CRI multi-input wrapper sets the title to
"Colour Rendering Index - " followed by the distributions' strict names
joined by ", " in input order; in particular "F2" and "Kinoton 75P" yield
"Colour Rendering Index - F2, Kinoton 75P". -/
theorem cri_title_format (convert : Triple → Triple) (patterns : List String)
    (cri : SpectralPowerDistribution → QualitySpecification)
    (spds : List SpectralPowerDistribution)
    (lbls : Bool) (hatching : Option Bool) (hr : ℕ) :
    (multi_spd_colour_rendering_index_bars_plot convert patterns cri spds
        lbls hatching hr).title =
      "Colour Rendering Index - " ++
        String.intercalate ", " (spds.map (fun s => s.strict_name)) ∧
    (multi_spd_colour_rendering_index_bars_plot convert patterns cri
        [⟨"F2"⟩, ⟨"Kinoton 75P"⟩] lbls hatching hr).title =
      "Colour Rendering Index - F2, Kinoton 75P" :=
  ⟨rfl, rfl⟩

/-- C9: Each single-input wrapper applied to `spd` returns exactly the
multi-input wrapper applied to `[spd]` with the same arguments, for both
the CRI and the CQS pair. -/
theorem single_delegates_to_multi (convert : Triple → Triple)
    (patterns : List String)
    (cri cqs : SpectralPowerDistribution → QualitySpecification)
    (spd : SpectralPowerDistribution)
    (lbls : Bool) (hatching : Option Bool) (hr : ℕ) :
    single_spd_colour_rendering_index_bars_plot convert patterns cri spd
        lbls hatching hr =
      multi_spd_colour_rendering_index_bars_plot convert patterns cri [spd]
        lbls hatching hr ∧
    single_spd_colour_quality_scale_bars_plot convert patterns cqs spd
        lbls hatching hr =
      multi_spd_colour_quality_scale_bars_plot convert patterns cqs [spd]
        lbls hatching hr :=
  ⟨rfl, rfl⟩

/-- C2 (code bug): for a specification with 2 samples the code sets the
four x-tick labels "Qa", "Q1", "Q2", "Q3" against only three tick
positions — one label more than the `count_Q_as + 1 = 3` bar groups, so
the label list cannot be one label per group as the spec states. -/
theorem xtick_labels_exceed_groups :
    (colour_quality_bars_plot idConvert samplePatterns [sampleSpec] true none
        2).x_tick_labels = ["Qa", "Q1", "Q2", "Q3"] ∧
    (colour_quality_bars_plot idConvert samplePatterns [sampleSpec] true none
        2).x_ticks.length = 3 := by
  exact ⟨rfl, rfl⟩

/-- C6: Every colorimetry datum of a CRI specification processed by the
wrapper is rebuilt with its XYZ divided componentwise by 100, keeping
name, uv and UVW unchanged. -/
theorem cri_rescale_by_100 (cri : SpectralPowerDistribution → QualitySpecification)
    (spds : List SpectralPowerDistribution) (j i : ℕ)
    (s : QualitySpecification) (c : TCS_ColorimetryData)
    (hj : (spds.map cri).get? j = some s)
    (hi : s.colorimetry_data.1.get? i = some c) :
    (cri_specifications cri spds).get? j = some (rescaleColorimetryData s) ∧
    (rescaleColorimetryData s).colorimetry_data.1.get? i =
      some { name := c.name,
             XYZ := (c.XYZ.1 / 100, c.XYZ.2.1 / 100, c.XYZ.2.2 / 100),
             uv := c.uv, UVW := c.UVW } := by
  have hj' : (spds.map cri)[j]? = some s := by
    rw [← List.get?_eq_getElem?]; exact hj
  have hi' : s.colorimetry_data.1[i]? = some c := by
    rw [← List.get?_eq_getElem?]; exact hi
  constructor
  · rw [cri_specifications, List.get?_eq_getElem?, List.getElem?_map, hj',
      Option.map_some']
  · rw [rescale_cd_fst, List.get?_eq_getElem?, List.getElem?_map, hi',
      Option.map_some']
    exact rfl

/-- Witness for C6 at a concrete input: sample XYZ (50, 100, 20) is
rescaled to (0.5, 1, 0.2) with name, uv, UVW carried over. -/
theorem cri_rescale_by_100_witness :
    (cri_specifications (fun _ => sampleSpec) [⟨"F2"⟩]).get? 0 =
      some (rescaleColorimetryData sampleSpec) ∧
    (rescaleColorimetryData sampleSpec).colorimetry_data.1.get? 0 =
      some { name := "TCS1", XYZ := (1/2, 1, 1/5),
             uv := (1/5, 3/10), UVW := (10, 20, 30) } := by
  have h := cri_rescale_by_100 (fun _ => sampleSpec) [⟨"F2"⟩] 0 0 sampleSpec
    sampleDatum rfl rfl
  refine ⟨h.1, ?_⟩
  rw [h.2]
  simp only [sampleDatum, Option.some.injEq, TCS_ColorimetryData.mk.injEq,
    Prod.mk.injEq]
  norm_num

/-- C4: With hatching explicitly disabled, the hatch applied to bar `j` of
any drawn series is the cycled pattern exactly when the bar's score is
negative, and no hatch otherwise. -/
theorem hatch_iff_negative_when_disabled (convert : Triple → Triple)
    (patterns : List String) (specs : List QualitySpecification)
    (lbls : Bool) (hr i j : ℕ) (b : DrawnBars)
    (spec : QualitySpecification) (v : ℚ)
    (hs : specs.get? i = some spec)
    (hb : (colour_quality_bars_plot convert patterns specs lbls (some false)
      hr).bars.get? i = some b)
    (hv : (yValues spec).get? j = some v) :
    b.hatches.get? j =
      some (if v < 0 then some (patternAt patterns i) else none) ∧
    ∃ h, b.hatches.get? j = some h ∧ (h.isSome = true ↔ v < 0) := by
  rw [plot_bars_get?, hs] at hb
  obtain rfl : specDrawnBars convert patterns specs.length
      (resolveHatching (some false) specs.length) hr i spec = b :=
    Option.some.inj hb
  have h1 : (specDrawnBars convert patterns specs.length
      (resolveHatching (some false) specs.length) hr i spec).hatches.get? j =
      some (if v < 0 then some (patternAt patterns i) else none) := by
    show ((yValues spec).map
        (fun w => if w < 0 then some (patternAt patterns i) else none)).get? j =
      some (if v < 0 then some (patternAt patterns i) else none)
    rw [List.get?_map, hv, Option.map_some']
  refine ⟨h1, ⟨if v < 0 then some (patternAt patterns i) else none, h1, ?_⟩⟩
  by_cases hneg : v < 0 <;> simp [hneg]

/-- Witness for C4 at a concrete input: with hatching disabled, the bar for
the negative score -5 carries the hatch pattern, provided by applying the
theorem at specification 0, bar index 2. -/
theorem hatch_iff_negative_when_disabled_witness :
    (specDrawnBars idConvert samplePatterns 1
        (resolveHatching (some false) 1) 2 0 sampleSpec).hatches.get? 2 =
      some (some "\\") :=
  (hatch_iff_negative_when_disabled idConvert samplePatterns [sampleSpec]
    true 2 0 2 _ sampleSpec (-5) rfl rfl rfl).1

/-- C10: The drawn height of bar `j` is the absolute value of its score,
and every drawn height is non-negative (a negative score never yields a
bar extending below zero). -/
theorem bar_height_abs (convert : Triple → Triple) (patterns : List String)
    (specs : List QualitySpecification) (lbls : Bool)
    (hatching : Option Bool) (hr i j : ℕ) (b : DrawnBars)
    (spec : QualitySpecification) (v : ℚ)
    (hs : specs.get? i = some spec)
    (hb : (colour_quality_bars_plot convert patterns specs lbls hatching
      hr).bars.get? i = some b)
    (hv : (yValues spec).get? j = some v) :
    b.heights.get? j = some |v| ∧ ∀ h ∈ b.heights, 0 ≤ h := by
  rw [plot_bars_get?, hs] at hb
  obtain rfl : specDrawnBars convert patterns specs.length
      (resolveHatching hatching specs.length) hr i spec = b :=
    Option.some.inj hb
  constructor
  · show ((yValues spec).map (fun w => |w|)).get? j = some |v|
    rw [List.get?_map, hv, Option.map_some']
  · intro h hh
    rw [specDrawnBars_heights] at hh
    simp only [List.mem_map] at hh
    obtain ⟨w, _, rfl⟩ := hh
    exact abs_nonneg w

/-- Witness for C10 at a concrete input: the bar for the score -5 is drawn
with height |-5| = 5. -/
theorem bar_height_abs_witness :
    (specDrawnBars idConvert samplePatterns 1 (resolveHatching none 1) 2 0
        sampleSpec).heights.get? 2 = some 5 := by
  have h := bar_height_abs idConvert samplePatterns [sampleSpec] true none
    2 0 2 _ sampleSpec (-5) rfl rfl rfl
  simpa using h.1

/-- C1: For a non-empty specification list whose specifications all have
`m` samples, one bar series is drawn per specification, each series has
`m + 1` bars (the `m + 1` bar groups), and the `k`-th bar of series `i`
sits at the shared group-`k` base abscissa offset by `i * bar_width`. -/
theorem bar_groups_count_and_positions (convert : Triple → Triple)
    (patterns : List String) (specs : List QualitySpecification)
    (lbls : Bool) (hatching : Option Bool) (hr m : ℕ)
    (hne : specs ≠ []) (hm : ∀ s ∈ specs, s.Q_as.length = m) :
    (colour_quality_bars_plot convert patterns specs lbls hatching
        hr).bars.length = specs.length ∧
    ∀ i b, (colour_quality_bars_plot convert patterns specs lbls hatching
        hr).bars.get? i = some b →
      b.xs.length = m + 1 ∧ b.heights.length = m + 1 ∧
      b.xs = (List.range (m + 1)).map
        (fun k : ℕ => (k : ℚ) * ((specs.length : ℚ) + 1) * bar_width +
          (i : ℚ) * bar_width) := by
  refine ⟨by simp [colour_quality_bars_plot], ?_⟩
  intro i b hb
  rw [plot_bars_get?, Option.map_eq_some'] at hb
  obtain ⟨spec, hs, rfl⟩ := hb
  have hms : spec.Q_as.length = m := hm spec (List.get?_mem hs)
  refine ⟨?_, ?_, ?_⟩
  · rw [specDrawnBars_xs, hms, xPositions, List.length_map, List.length_range]
  · rw [specDrawnBars_heights, List.length_map]
    simp only [yValues, List.length_cons, List.length_map, sortedItems,
      List.length_insertionSort, hms]
  · rw [specDrawnBars_xs, hms, xPositions]
    congr 1
    funext k
    ring

/-- Witness for C1 at a concrete input: two specifications with two
samples each yield two bar series. -/
theorem bar_groups_count_and_positions_witness :
    (colour_quality_bars_plot idConvert samplePatterns
        [sampleSpec, sampleSpecB] true none 2).bars.length = 2 :=
  (bar_groups_count_and_positions idConvert samplePatterns
    [sampleSpec, sampleSpecB] true none 2 2 (by decide) (by decide)).1

/-- C7: In every drawn series the values are the overall score followed by
the per-sample scores sorted by ascending sample key (a sorted permutation
of the `Q_as` items); the first bar's fill is the neutral colour (1,1,1)
and the fill of bar `j + 1` is the `j`-th colorimetry datum's XYZ pushed
through the display-colourspace conversion and clipped to [0, 1]. -/
theorem first_bar_overall_neutral_rest_converted (convert : Triple → Triple)
    (patterns : List String) (specs : List QualitySpecification)
    (lbls : Bool) (hatching : Option Bool) (hr i : ℕ) (b : DrawnBars)
    (spec : QualitySpecification)
    (hs : specs.get? i = some spec)
    (hb : (colour_quality_bars_plot convert patterns specs lbls hatching
      hr).bars.get? i = some b) :
    b.heights =
      (spec.Q_a :: (sortedItems spec.Q_as).map (fun s => s.2.Q_a)).map
        (fun v => |v|) ∧
    List.Sorted (fun p q => p.1 ≤ q.1) (sortedItems spec.Q_as) ∧
    (sortedItems spec.Q_as).Perm spec.Q_as ∧
    b.colours.get? 0 = some (1, 1, 1) ∧
    ∀ j c, spec.colorimetry_data.1.get? j = some c →
      b.colours.get? (j + 1) = some (clip3 (convert c.XYZ)) := by
  rw [plot_bars_get?, hs] at hb
  obtain rfl : specDrawnBars convert patterns specs.length
      (resolveHatching hatching specs.length) hr i spec = b :=
    Option.some.inj hb
  haveI : IsTotal (ℕ × QualityDataItem) (fun p q => p.1 ≤ q.1) :=
    ⟨fun p q => Nat.le_total p.1 q.1⟩
  haveI : IsTrans (ℕ × QualityDataItem) (fun p q => p.1 ≤ q.1) :=
    ⟨fun _ _ _ h1 h2 => Nat.le_trans h1 h2⟩
  refine ⟨rfl, List.sorted_insertionSort _ _, List.perm_insertionSort _ _,
    rfl, ?_⟩
  intro j c hc
  rw [specDrawnBars_colours, barColours, List.get?_cons_succ, List.get?_map,
    hc, Option.map_some']

/-- Witness for C7 at a concrete input: the fill of bar 1 of the concrete
series is the converted and clipped XYZ of the first colorimetry datum. -/
theorem first_bar_overall_neutral_rest_converted_witness :
    (specDrawnBars idConvert samplePatterns 1 (resolveHatching none 1) 2 0
        sampleSpec).colours.get? 1 = some (clip3 (idConvert sampleDatum.XYZ)) :=
  (first_bar_overall_neutral_rest_converted idConvert samplePatterns
    [sampleSpec] true none 2 0 _ sampleSpec rfl rfl).2.2.2.2 0 sampleDatum rfl

end ColourQuality
